import Mathlib

/-!
Verification of the itinerary-template core (document mapping, page model,
navigation, load control, adjacent-page image preloading) of the
traverse-backend web template, shallowly embedded from
`src/itinerarytemplate/src/App.tsx` and
`src/itinerarytemplate/src/components/DayPage.tsx`.

JavaScript values reachable in this code (JSON payloads plus `undefined`)
are modelled by `JsVal`; JS numbers are modelled as rationals (every number
occurring in the mapped documents comes from JSON and the arithmetic the
claims touch is exact at the cited inputs). Property access that throws a
`TypeError` (reading a field of `null`/`undefined`, calling `.map` on a
non-array) is modelled with `Except`.
-/

namespace Traverse

/-- JavaScript values as far as this template manipulates them:
`undefined`, `null`, booleans, numbers (as `ℚ`), strings, arrays, objects. -/
inductive JsVal where
  | undefined : JsVal
  | null : JsVal
  | bool (b : Bool) : JsVal
  | num (q : ℚ) : JsVal
  | str (s : String) : JsVal
  | arr (xs : List JsVal) : JsVal
  | obj (fields : List (String × JsVal)) : JsVal
deriving Repr

/-- True when `v` is `null` or `undefined` (the values caught by JS `??`). -/
def JsVal.isNullish : JsVal → Bool
  | .undefined => true
  | .null => true
  | _ => false

/-- JS truthiness, as used by `if (activity.image)` and `referer && ...`. -/
def JsVal.truthy : JsVal → Bool
  | .undefined => false
  | .null => false
  | .bool b => b
  | .num q => decide (q ≠ 0)
  | .str s => decide (s ≠ "")
  | .arr _ => true
  | .obj _ => true

/-- JS nullish coalescing `a ?? b`. -/
def nullish (a b : JsVal) : JsVal :=
  if a.isNullish then b else a

/-- Property read on a value already known not to be nullish: on an object
it is an association-list lookup (absent key ↦ `undefined`); primitives and
arrays have none of the named properties this template reads. -/
def propOf (v : JsVal) (k : String) : JsVal :=
  match v with
  | .obj fields => (fields.lookup k).getD .undefined
  | _ => .undefined

/-! ## DocumentMapper (`mapDocumentToTemplate` in App.tsx) -/

/-- The fixed placeholder image URL of `mapDocumentToTemplate`. -/
def placeholderImg : String :=
  "https://images.unsplash.com/photo-1500530855697-b586d89ba3ee?q=80&w=1200&auto=format&fit=crop"

/-- A mapped activity: the value of one element of the `activities` list of a mapped day. Field values stay JS values, since non-nullish source
values of any type pass through `??` unchanged. -/
structure MappedActivity where
  time : JsVal
  title : JsVal
  location : JsVal
  description : JsVal
  image : JsVal
  distance_to_next : JsVal
deriving Repr

/-- A mapped day of the itinerary model of the template. -/
structure MappedDay where
  dayNumber : Nat
  date : JsVal
  activities : List MappedActivity
deriving Repr

/-- The normalized itinerary produced by `mapDocumentToTemplate`. -/
structure Itinerary where
  tripName : JsVal
  traveler : JsVal
  destination : JsVal
  city : JsVal
  duration : JsVal
  dates : JsVal
  coverImage : JsVal
  days : List MappedDay
  notes : JsVal
  tripType : JsVal
  group : JsVal
deriving Repr

/-- Body of the inner arrow mapping one activity object. Its six
property reads are all on `a`, so it throws a `TypeError` exactly when `a`
is `null`/`undefined` (at the first read, of `time`); otherwise every field
is the read value with `??` applying the default of the object literal. -/
def mapActivity (a : JsVal) : Except String MappedActivity :=
  match a with
  | .undefined => .error "TypeError: cannot read time of undefined"
  | .null => .error "TypeError: cannot read time of null"
  | _ => .ok
      { time := nullish (propOf a "time") (.str "")
        title := nullish (propOf a "title") (.str "")
        location := nullish (propOf a "location") (.str "")
        description := nullish (propOf a "description") (.str "")
        image := nullish (propOf a "image") (.str placeholderImg)
        distance_to_next := nullish (propOf a "distance_to_next") .null }

/-- Mapping `(day.activities ?? []).map(a => ...)` over the array elements, failing
at the first element that throws. -/
def mapActivitiesFrom : List JsVal → Except String (List MappedActivity)
  | [] => .ok []
  | a :: rest =>
    match mapActivity a with
    | .error e => .error e
    | .ok m =>
      match mapActivitiesFrom rest with
      | .error e => .error e
      | .ok ms => .ok (m :: ms)

/-- Semantics of `.map` called on the value of `day.activities ?? []`: a `TypeError`
unless that value is an array. -/
def mapActivitiesVal (v : JsVal) : Except String (List MappedActivity) :=
  match v with
  | .arr xs => mapActivitiesFrom xs
  | _ => .error "TypeError: activities.map is not a function"

/-- Body of `(day, idx) => ({dayNumber: idx + 1, ...})`: reads `day.date`
and `day.activities` (throwing exactly when `day` is nullish), then maps
the activities; `dayNumber` is the map index plus one. -/
def mapDay (idx : Nat) (day : JsVal) : Except String MappedDay :=
  match day with
  | .undefined => .error "TypeError: cannot read date of undefined"
  | .null => .error "TypeError: cannot read date of null"
  | _ =>
    match mapActivitiesVal (nullish (propOf day "activities") (.arr [])) with
    | .error e => .error e
    | .ok ms => .ok
        { dayNumber := idx + 1
          date := nullish (propOf day "date") (.str "")
          activities := ms }

/-- Mapping `(doc.days ?? []).map((day, idx) => ...)` over the array elements,
starting at map index `idx`. -/
def mapDaysFrom : Nat → List JsVal → Except String (List MappedDay)
  | _, [] => .ok []
  | idx, d :: rest =>
    match mapDay idx d with
    | .error e => .error e
    | .ok m =>
      match mapDaysFrom (idx + 1) rest with
      | .error e => .error e
      | .ok ms => .ok (m :: ms)

/-- Semantics of `.map` called on the value of `doc.days ?? []`: a `TypeError` unless
that value is an array. -/
def mapDaysVal (v : JsVal) : Except String (List MappedDay) :=
  match v with
  | .arr xs => mapDaysFrom 0 xs
  | _ => .error "TypeError: days.map is not a function"

/-- Embedding of `mapDocumentToTemplate` of App.tsx: maps the backend document shape to
the template shape. Every top-level property read is on `doc`, so a
`TypeError` from those reads occurs exactly when `doc` is nullish (at the
first read, of `trip_name`, evaluated first in the object literal); the
only other throw point is `.map` on a non-array `days`/`activities` value,
surfaced through `mapDaysVal`. -/
def mapDocumentToTemplate (doc : JsVal) : Except String Itinerary :=
  match doc with
  | .undefined => .error "TypeError: cannot read trip_name of undefined"
  | .null => .error "TypeError: cannot read trip_name of null"
  | _ =>
    match mapDaysVal (nullish (propOf doc "days") (.arr [])) with
    | .error e => .error e
    | .ok days => .ok
        { tripName := nullish (propOf doc "trip_name") (.str "Trip")
          traveler := nullish (propOf doc "traveler_name") (.str "Traveler")
          destination := nullish (propOf doc "destination") (.str "Destination")
          city := nullish (propOf doc "city") .null
          duration := nullish (propOf doc "duration") (.str "Trip")
          dates := nullish (propOf doc "dates") (.str "")
          coverImage := nullish (propOf doc "cover_image") (.str placeholderImg)
          days := days
          notes := nullish (propOf doc "notes") (.arr [])
          tripType := nullish (propOf doc "trip_type") .null
          group := nullish (propOf doc "group") .null }

/-! ## PageModel (`totalPages` / `renderCurrentPage` in App.tsx) -/

/-- The kind of page rendered at an index (the `key` branch taken by
`renderCurrentPage`); `day offset` carries the 0-based index into `days`. -/
inductive Page where
  | cover : Page
  | participants : Page
  | day (offset : Nat) : Page
  | notes : Page
deriving Repr, DecidableEq

/-- Source: `const daysStartPage = hasParticipants ? 2 : 1`. -/
def daysStartPage (hasParticipants : Bool) : Nat :=
  if hasParticipants then 2 else 1

/-- Embedding of `totalPages` of App.tsx (for loaded data): cover + optional
participants + days + notes. -/
def totalPages (hasParticipants : Bool) (dayCount : Nat) : Nat :=
  1 + (if hasParticipants then 1 else 0) + dayCount + 1

/-- The branch structure of `renderCurrentPage` in App.tsx: page 0 is the
cover; page 1 is participants when they exist; indices in
`[daysStartPage, daysStartPage + dayCount - 1]` are day pages with offset
`currentPage - daysStartPage`; everything else falls through to notes. -/
def renderCurrentPage (hasParticipants : Bool) (dayCount currentPage : Nat) : Page :=
  if currentPage = 0 then .cover
  else if hasParticipants && currentPage == 1 then .participants
  else
    let s := daysStartPage hasParticipants
    let daysEndPage := s + dayCount - 1
    if s ≤ currentPage ∧ currentPage ≤ daysEndPage then .day (currentPage - s)
    else .notes

/-! ## NavigationController (`handleNext` / `handlePrevious` in App.tsx) -/

/-- Source: `handleNext` is `prev => prev < totalPages - 1 ? prev + 1 : prev`. -/
def handleNext (totalPages currentPage : Nat) : Nat :=
  if currentPage < totalPages - 1 then currentPage + 1 else currentPage

/-- Source: `handlePrevious` is `prev => prev > 0 ? prev - 1 : prev`. -/
def handlePrevious (currentPage : Nat) : Nat :=
  if 0 < currentPage then currentPage - 1 else currentPage

/-! ## LoadController (the load `useEffect` in App.tsx) -/

/-- Inputs read by the load effect: the two environment options, the
reported `document.referrer`, and the `itineraryId` / `token` query
parameters (`URLSearchParams.get` yields `null` for an absent one). -/
structure LoadEnv where
  allowedRefererEnv : String
  templateSecret : String
  referer : String
  itineraryId : Option String
  token : Option String
deriving Repr, DecidableEq

/-- How the load effect resolves before any network response: denial with
an error message, immediate demo data, or issuing the fetch. -/
inductive LoadAction where
  | denied (message : String) : LoadAction
  | demoReady : LoadAction
  | fetchIssued (id : String) : LoadAction
deriving Repr, DecidableEq

def LoadAction.isDenied : LoadAction → Bool
  | .denied _ => true
  | _ => false

/-- JS `s || fallback` for strings: the fallback replaces exactly the empty
(falsy) string. -/
def strOr (s fallback : String) : String :=
  if s = "" then fallback else s

/-- Embedding of `s.includes(pat)`: substring containment. -/
def strContains (s pat : String) : Bool :=
  decide (List.IsInfix pat.data s.data)

/-- The synchronous part of the load `useEffect`: the referer/token check,
then either an early `denied` return, demo data when no `itineraryId` is
present, or the fetch of the given id. -/
def loadDecision (env : LoadEnv) : LoadAction :=
  let allowedDomain := strOr env.allowedRefererEnv "traverse-hq.com"
  let expectedToken := env.templateSecret
  let hasValidReferer := decide (env.referer ≠ "") && strContains env.referer allowedDomain
  let hasValidToken :=
    if expectedToken ≠ "" then decide (env.token = some expectedToken) else true
  if decide (expectedToken ≠ "") && !hasValidReferer && !hasValidToken then
    .denied "Unauthorized: This itinerary can only be accessed through the Traverse app."
  else
    match env.itineraryId with
    | none => .demoReady
    | some id => .fetchIssued id

/-! ## App render state (`showLoading` and the returned JSX in App.tsx) -/

/-- The four state variables the render of `App` reads. -/
structure AppState where
  loading : Bool
  isHydrated : Bool
  data : Option Itinerary
  error : Option String

/-- Source: `const showLoading = loading || !isHydrated || !data;` (a non-null
`data` object is always truthy). -/
def showLoading (st : AppState) : Bool :=
  st.loading || !st.isHydrated || st.data.isNone

/-- Truthiness of the `error` state (`string | null`). -/
def errTruthy : Option String → Bool
  | none => false
  | some s => decide (s ≠ "")

/-- What the returned JSX mounts. -/
structure RenderOutput where
  showsLoadingScreen : Bool
  showsError : Bool
  showsPageContent : Bool
deriving Repr, DecidableEq

/-- The JSX of `App`: `{showLoading && <LoadingScreen/>}`,
`{error && <div .../>}`, `{!showLoading && !error && <>...page...</>}`. -/
def appRender (st : AppState) : RenderOutput :=
  { showsLoadingScreen := showLoading st
    showsError := errTruthy st.error
    showsPageContent := !showLoading st && !errTruthy st.error }

/-! ## DayPage distance indicator (components/DayPage.tsx) -/

def JsVal.isNull : JsVal → Bool
  | .null => true
  | _ => false

def JsVal.isUndefined : JsVal → Bool
  | .undefined => true
  | _ => false

/-- Guard of the distance indicator in the screen `DayPage`:
`activity.distance_to_next !== null && activity.distance_to_next !==
undefined && index < activities.length - 1` (out-of-range indices are never
produced by `activities.map`). -/
def showDistanceIndicator (activities : List MappedActivity) (i : Nat) : Bool :=
  match activities[i]? with
  | none => false
  | some a =>
    !a.distance_to_next.isNull && !a.distance_to_next.isUndefined &&
      decide (i < activities.length - 1)

/-- Guard of the distance indicator in the print `DayPage` variant:
`activity.distance_to_next !== undefined && activity.distance_to_next !==
null && index < activities.length - 1`. -/
def showDistanceIndicatorPrint (activities : List MappedActivity) (i : Nat) : Bool :=
  match activities[i]? with
  | none => false
  | some a =>
    !a.distance_to_next.isUndefined && !a.distance_to_next.isNull &&
      decide (i < activities.length - 1)

/-- Embedding of `Math.round(km * 0.621371 * 10) / 10` of the screen `DayPage`
(`Math.round` rounds half toward positive infinity, as does `round`). -/
def kmToMiRounded (km : ℚ) : ℚ :=
  (round (km * (621371 / 1000000) * 10) : ℤ) / 10

/-- The numbers the indicator span interpolates,
`{d} km ({Math.round(d * 0.621371 * 10) / 10} mi)`, for a numeric
`distance_to_next` (the only kind the `Activity` type of the component admits
besides `null`/`undefined`, which the guard excludes). -/
def distanceLabel (v : JsVal) : Option (ℚ × ℚ) :=
  match v with
  | .num q => some (q, kmToMiRounded q)
  | _ => none

/-! ## Image references of the rendered pages -/

/-- The image references each page kind renders: `CoverPage` mounts one
`ImageWithFallback` with `src={coverImage}`; `DayPage` mounts one per
activity with `src={activity.image}`; `ParticipantsPage` and `NotesPage`
render no images. -/
def pageImages (data : Itinerary) : Page → List JsVal
  | .cover => [data.coverImage]
  | .participants => []
  | .day offset =>
    match data.days[offset]? with
    | some d => d.activities.map (fun a => a.image)
    | none => []
  | .notes => []

/-! ## Prefetcher (the preload `useEffect` in App.tsx) -/

/-- The images the preload effect collects for one adjacent page index
`page` (the common body of its next-page and previous-page halves): the
cover image if `page` is 0, nothing for the participants page, the truthy
activity images for a day page in range, nothing otherwise. -/
def preloadImagesForPage (hasParticipants : Bool) (data : Itinerary) (page : Nat) :
    List JsVal :=
  if page = 0 then [data.coverImage]
  else if hasParticipants && page == 1 then []
  else
    let s := daysStartPage hasParticipants
    if s ≤ page ∧ page < s + data.days.length then
      match data.days[page - s]? with
      | some d => (d.activities.filter (fun a => a.image.truthy)).map (fun a => a.image)
      | none => []
    else []

/-- Embedding of `imagesToPreload` of the preload effect: the images of the next page when a
next page exists, followed by the images of the previous page when a previous
page exists (push order of the source). -/
def preloadImages (hasParticipants : Bool) (data : Itinerary)
    (totalPages currentPage : Nat) : List JsVal :=
  (if currentPage < totalPages - 1 then
    preloadImagesForPage hasParticipants data (currentPage + 1)
  else []) ++
  (if 0 < currentPage then
    preloadImagesForPage hasParticipants data (currentPage - 1)
  else [])

/-- The preload effect including its guard
`if (loading || !isHydrated || !data) return;`. -/
def preloadEffect (st : AppState) (hasParticipants : Bool)
    (totalPages currentPage : Nat) : List JsVal :=
  match st.data with
  | none => []
  | some d =>
    if st.loading || !st.isHydrated then []
    else preloadImages hasParticipants d totalPages currentPage

/-- The subset of the rendered image references of a page that the preload effect
actually fetches: all of them for the cover (pushed unconditionally), only
the truthy activity images for a day page (`if (activity.image)`), none for
participants/notes. -/
def fetchedImagesOfPage (data : Itinerary) : Page → List JsVal
  | .cover => pageImages data .cover
  | .day offset => (pageImages data (.day offset)).filter JsVal.truthy
  | .participants => []
  | .notes => []

/-! ## Statement-side predicates -/

def JsVal.isNumber : JsVal → Bool
  | .num _ => true
  | _ => false

/-- No field of a mapped activity is `undefined`. -/
def MappedActivity.noUndefined (a : MappedActivity) : Bool :=
  !a.time.isUndefined && !a.title.isUndefined && !a.location.isUndefined &&
    !a.description.isUndefined && !a.image.isUndefined && !a.distance_to_next.isUndefined

/-- No field of a mapped day is `undefined`. -/
def MappedDay.noUndefined (d : MappedDay) : Bool :=
  !d.date.isUndefined && d.activities.all MappedActivity.noUndefined

/-- No field of a mapped itinerary is `undefined`, at any depth. -/
def Itinerary.noUndefined (it : Itinerary) : Bool :=
  !it.tripName.isUndefined && !it.traveler.isUndefined && !it.destination.isUndefined &&
    !it.city.isUndefined && !it.duration.isUndefined && !it.dates.isUndefined &&
    !it.coverImage.isUndefined && !it.notes.isUndefined && !it.tripType.isUndefined &&
    !it.group.isUndefined && it.days.all MappedDay.noUndefined

/-- A source day on which the mapper cannot throw: the day itself is not
nullish, and its `activities` (after `?? []`) is an array of non-nullish
elements. -/
def mappableDay (d : JsVal) : Bool :=
  !d.isNullish &&
    (match nullish (propOf d "activities") (.arr []) with
     | .arr xs => xs.all (fun a => !a.isNullish)
     | _ => false)

/-- A source document on which the mapper cannot throw: the document is not
nullish and its `days` (after `?? []`) is an array of mappable days. -/
def mappableDoc (doc : JsVal) : Bool :=
  !doc.isNullish &&
    (match nullish (propOf doc "days") (.arr []) with
     | .arr xs => xs.all mappableDay
     | _ => false)

/-! ## Lemmas about the mapper -/

theorem nullish_isUndefined {a b : JsVal} (hb : b.isUndefined = false) :
    (nullish a b).isUndefined = false := by
  cases a <;> first
    | exact hb
    | rfl

theorem mapActivity_ok_shape {a : JsVal} {m : MappedActivity}
    (h : mapActivity a = .ok m) :
    m = { time := nullish (propOf a "time") (.str "")
          title := nullish (propOf a "title") (.str "")
          location := nullish (propOf a "location") (.str "")
          description := nullish (propOf a "description") (.str "")
          image := nullish (propOf a "image") (.str placeholderImg)
          distance_to_next := nullish (propOf a "distance_to_next") .null } := by
  cases a <;> simp [mapActivity] at h <;> exact h.symm

theorem mapActivity_ok_of_nonnullish {a : JsVal} (h : a.isNullish = false) :
    ∃ m, mapActivity a = .ok m := by
  cases a <;> simp [JsVal.isNullish] at h ⊢ <;> exact ⟨_, rfl⟩

theorem mapActivity_noUndefined {a : JsVal} {m : MappedActivity}
    (h : mapActivity a = .ok m) : m.noUndefined = true := by
  rw [mapActivity_ok_shape h]
  simp only [MappedActivity.noUndefined, Bool.and_eq_true, Bool.not_eq_true']
  refine ⟨⟨⟨⟨⟨?_, ?_⟩, ?_⟩, ?_⟩, ?_⟩, ?_⟩ <;> exact nullish_isUndefined rfl

theorem mapActivitiesFrom_ok {xs : List JsVal}
    (h : ∀ a ∈ xs, a.isNullish = false) :
    ∃ ms, mapActivitiesFrom xs = .ok ms ∧ (∀ m ∈ ms, m.noUndefined = true) := by
  induction xs with
  | nil => exact ⟨[], rfl, by simp⟩
  | cons a rest ih =>
    obtain ⟨m, hm⟩ := mapActivity_ok_of_nonnullish (h a (by simp))
    obtain ⟨ms, hms, hall⟩ := ih (fun x hx => h x (by simp [hx]))
    refine ⟨m :: ms, by simp [mapActivitiesFrom, hm, hms], ?_⟩
    intro x hx
    rcases List.mem_cons.mp hx with rfl | hx
    · exact mapActivity_noUndefined hm
    · exact hall x hx

theorem mapDay_ok {d : JsVal} (idx : Nat) (h : mappableDay d = true) :
    ∃ m, mapDay idx d = .ok m ∧ m.noUndefined = true ∧ m.dayNumber = idx + 1 := by
  rw [mappableDay, Bool.and_eq_true] at h
  obtain ⟨h1, h2⟩ := h
  rw [Bool.not_eq_true'] at h1
  split at h2
  case h_2 => exact absurd h2 (by simp)
  case h_1 xs hxs =>
    obtain ⟨ms, hms, hall⟩ := mapActivitiesFrom_ok (by
      intro a ha
      have := List.all_eq_true.mp h2 a ha
      simpa using this)
    refine ⟨{ dayNumber := idx + 1
              date := nullish (propOf d "date") (.str "")
              activities := ms }, ?_, ?_, rfl⟩
    · cases d
      case undefined => simp [JsVal.isNullish] at h1
      case null => simp [JsVal.isNullish] at h1
      all_goals simp [mapDay, hxs, mapActivitiesVal, hms]
    · simp only [MappedDay.noUndefined, Bool.and_eq_true, Bool.not_eq_true',
        List.all_eq_true]
      exact ⟨nullish_isUndefined rfl, hall⟩

theorem mapDay_dayNumber {d : JsVal} {idx : Nat} {m : MappedDay}
    (h : mapDay idx d = .ok m) : m.dayNumber = idx + 1 := by
  cases d
  case undefined => simp [mapDay] at h
  case null => simp [mapDay] at h
  all_goals
    simp only [mapDay] at h
    split at h
    · exact absurd h (by simp)
    · rw [Except.ok.injEq] at h
      rw [← h]

theorem mapDaysFrom_ok {xs : List JsVal} (idx : Nat)
    (h : ∀ d ∈ xs, mappableDay d = true) :
    ∃ ms, mapDaysFrom idx xs = .ok ms ∧ ms.length = xs.length ∧
      (∀ m ∈ ms, m.noUndefined = true) := by
  induction xs generalizing idx with
  | nil => exact ⟨[], rfl, rfl, by simp⟩
  | cons d rest ih =>
    obtain ⟨m, hm, hnu, _⟩ := mapDay_ok idx (h d (by simp))
    obtain ⟨ms, hms, hlen, hall⟩ := ih (idx + 1) (fun x hx => h x (by simp [hx]))
    refine ⟨m :: ms, by simp [mapDaysFrom, hm, hms], by simp [hlen], ?_⟩
    intro x hx
    rcases List.mem_cons.mp hx with rfl | hx
    · exact hnu
    · exact hall x hx

theorem mapDaysFrom_dayNumber {xs : List JsVal} :
    ∀ {idx : Nat} {ms : List MappedDay}, mapDaysFrom idx xs = .ok ms →
      ∀ i m, ms[i]? = some m → m.dayNumber = idx + i + 1 := by
  induction xs with
  | nil =>
    intro idx ms h i m hm
    simp [mapDaysFrom] at h
    subst h
    simp at hm
  | cons d rest ih =>
    intro idx ms h i m hm
    rw [mapDaysFrom] at h
    split at h
    · simp at h
    case h_2 m0 hm0 =>
      split at h
      · simp at h
      case h_2 ms' hms' =>
        rw [Except.ok.injEq] at h
        subst h
        cases i with
        | zero =>
          simp at hm
          subst hm
          exact mapDay_dayNumber hm0
        | succ j =>
          have := ih hms' j m (by simpa using hm)
          omega

theorem mapDocumentToTemplate_eq {doc : JsVal} (h : doc.isNullish = false) :
    mapDocumentToTemplate doc =
      match mapDaysVal (nullish (propOf doc "days") (.arr [])) with
      | .error e => .error e
      | .ok days => .ok
          { tripName := nullish (propOf doc "trip_name") (.str "Trip")
            traveler := nullish (propOf doc "traveler_name") (.str "Traveler")
            destination := nullish (propOf doc "destination") (.str "Destination")
            city := nullish (propOf doc "city") .null
            duration := nullish (propOf doc "duration") (.str "Trip")
            dates := nullish (propOf doc "dates") (.str "")
            coverImage := nullish (propOf doc "cover_image") (.str placeholderImg)
            days := days
            notes := nullish (propOf doc "notes") (.arr [])
            tripType := nullish (propOf doc "trip_type") .null
            group := nullish (propOf doc "group") .null } := by
  cases doc <;> first
    | rfl
    | simp [JsVal.isNullish] at h

theorem mapDocumentToTemplate_days {doc : JsVal} {it : Itinerary}
    (h : mapDocumentToTemplate doc = .ok it) :
    ∃ xs, nullish (propOf doc "days") (.arr []) = .arr xs ∧
      mapDaysFrom 0 xs = .ok it.days := by
  have h1 : doc.isNullish = false := by
    cases doc <;> first
      | rfl
      | simp [mapDocumentToTemplate] at h
  rw [mapDocumentToTemplate_eq h1] at h
  split at h
  · exact absurd h (by simp)
  case h_2 days hdays =>
    rw [Except.ok.injEq] at h
    cases hv : nullish (propOf doc "days") (.arr []) <;>
      rw [hv] at hdays <;> simp only [mapDaysVal] at hdays <;>
      try exact absurd hdays (by simp)
    case arr xs =>
      refine ⟨xs, rfl, ?_⟩
      rw [← h]
      exact hdays

/-! ## Claim theorems -/

/-- C1, counterexample: `mapDocumentToTemplate` is not total and does not
replace mistyped fields by defaults. On `{days: 5}` it throws a `TypeError`
(calling `.map` on a number), and on `{traveler_name: 42}` the mistyped
traveler value passes through instead of the default `"Traveler"`. -/
theorem mapper_total_counterexample :
    mapDocumentToTemplate (.obj [("days", .num 5)]) =
      .error "TypeError: days.map is not a function" ∧
    (mapDocumentToTemplate (.obj [("traveler_name", .num 42)])).map
        Itinerary.traveler = .ok (.num 42) ∧
    (JsVal.num 42 ≠ JsVal.str "Traveler") :=
  ⟨rfl, rfl, fun h => nomatch h⟩

/-- C1 (amended): on every raw document that is not nullish and whose
`days` (after `?? []`), and the `activities` of each day (after `?? []`), are
arrays of non-nullish elements, `mapDocumentToTemplate` succeeds and
returns an itinerary in which no field is `undefined` at any depth, `days`
is a list of the same length as the source array, and every field is the
source value with `??` substituting its named default for a missing or
null value (`traveler`→"Traveler", `destination`→"Destination",
`duration`→"Trip", `dates`→"", `coverImage`→placeholder URL, `notes`→[],
`tripType`→null, `group`→null). -/
theorem mapper_total_on_mappable_docs (doc : JsVal)
    (h : mappableDoc doc = true) :
    ∃ it, mapDocumentToTemplate doc = .ok it ∧
      it.noUndefined = true ∧
      it.tripName = nullish (propOf doc "trip_name") (.str "Trip") ∧
      it.traveler = nullish (propOf doc "traveler_name") (.str "Traveler") ∧
      it.destination = nullish (propOf doc "destination") (.str "Destination") ∧
      it.duration = nullish (propOf doc "duration") (.str "Trip") ∧
      it.dates = nullish (propOf doc "dates") (.str "") ∧
      it.coverImage = nullish (propOf doc "cover_image") (.str placeholderImg) ∧
      it.notes = nullish (propOf doc "notes") (.arr []) ∧
      it.tripType = nullish (propOf doc "trip_type") .null ∧
      it.group = nullish (propOf doc "group") .null ∧
      (∀ xs, nullish (propOf doc "days") (.arr []) = .arr xs →
        it.days.length = xs.length) := by
  rw [mappableDoc, Bool.and_eq_true] at h
  obtain ⟨h1, h2⟩ := h
  rw [Bool.not_eq_true'] at h1
  split at h2
  case h_2 => exact absurd h2 (by simp)
  case h_1 xs hxs =>
    obtain ⟨ms, hms, hlen, hall⟩ :=
      mapDaysFrom_ok 0 (fun d hd => List.all_eq_true.mp h2 d hd)
    refine ⟨{ tripName := nullish (propOf doc "trip_name") (.str "Trip")
              traveler := nullish (propOf doc "traveler_name") (.str "Traveler")
              destination := nullish (propOf doc "destination") (.str "Destination")
              city := nullish (propOf doc "city") .null
              duration := nullish (propOf doc "duration") (.str "Trip")
              dates := nullish (propOf doc "dates") (.str "")
              coverImage := nullish (propOf doc "cover_image") (.str placeholderImg)
              days := ms
              notes := nullish (propOf doc "notes") (.arr [])
              tripType := nullish (propOf doc "trip_type") .null
              group := nullish (propOf doc "group") .null },
      ?_, ?_, rfl, rfl, rfl, rfl, rfl, rfl, rfl, rfl, rfl, ?_⟩
    · rw [mapDocumentToTemplate_eq h1, hxs]
      simp only [mapDaysVal]
      rw [hms]
    · simp only [Itinerary.noUndefined, Bool.and_eq_true, Bool.not_eq_true',
        List.all_eq_true]
      refine ⟨⟨⟨⟨⟨⟨⟨⟨⟨⟨?_, ?_⟩, ?_⟩, ?_⟩, ?_⟩, ?_⟩, ?_⟩, ?_⟩, ?_⟩, ?_⟩, hall⟩
      all_goals exact nullish_isUndefined rfl
    · intro xs' hxs'
      rw [hxs] at hxs'
      rw [JsVal.arr.injEq] at hxs'
      rw [← hxs']
      exact hlen

/-- C1 witness: the amended totality theorem applied to the empty object
`{}`: mapping succeeds and the result has no `undefined` field. -/
theorem mapper_total_on_mappable_docs_witness :
    (mapDocumentToTemplate (.obj [])).map Itinerary.noUndefined = .ok true := by
  obtain ⟨it, hok, hnu, -, -, -, -, -, -, -, -, -⟩ :=
    mapper_total_on_mappable_docs (.obj []) rfl
  rw [hok]
  simp [Except.map, hnu]

/-- C8: for every document the mapper accepts, the `dayNumber` of the i-th
mapped day equals `i + 1`, regardless of any numbering present in the
source day objects. -/
theorem mapped_dayNumber_sequential (doc : JsVal) (it : Itinerary)
    (h : mapDocumentToTemplate doc = .ok it) (i : Nat) (m : MappedDay)
    (hm : it.days[i]? = some m) : m.dayNumber = i + 1 := by
  obtain ⟨xs, _, hds⟩ := mapDocumentToTemplate_days h
  have := mapDaysFrom_dayNumber hds i m hm
  omega

/-- The source document of the C8 witness, carrying a bogus `dayNumber`
hint on its first day. -/
def docW8 : JsVal :=
  .obj [("days", .arr [.obj [("dayNumber", .num 7)], .obj []])]

/-- The itinerary `docW8` maps to. -/
def itW8 : Itinerary :=
  { tripName := .str "Trip", traveler := .str "Traveler"
    destination := .str "Destination", city := .null, duration := .str "Trip"
    dates := .str "", coverImage := .str placeholderImg
    days := [⟨1, .str "", []⟩, ⟨2, .str "", []⟩]
    notes := .arr [], tripType := .null, group := .null }

/-- C8 witness: on a two-day document whose first day claims `dayNumber: 7`
the second mapped day still has `dayNumber = 2`. -/
theorem mapped_dayNumber_sequential_witness :
    mapDocumentToTemplate docW8 = .ok itW8 ∧
    itW8.days[1]? = some ⟨2, .str "", []⟩ ∧
    (⟨2, .str "", []⟩ : MappedDay).dayNumber = 1 + 1 :=
  ⟨rfl, rfl, mapped_dayNumber_sequential docW8 itW8 rfl 1 ⟨2, .str "", []⟩ rfl⟩

theorem renderCurrentPage_eq (hp : Bool) (n p : Nat) :
    renderCurrentPage hp n p =
      if p = 0 then .cover
      else if hp = true ∧ p = 1 then .participants
      else if daysStartPage hp ≤ p ∧ p < daysStartPage hp + n then
        .day (p - daysStartPage hp)
      else .notes := by
  unfold renderCurrentPage
  cases hp <;> by_cases h0 : p = 0 <;> simp [h0, daysStartPage]
  · by_cases hr : 1 ≤ p ∧ p < 1 + n
    · rw [if_pos (by omega : 1 ≤ p ∧ p ≤ n), if_pos hr]
    · rw [if_neg (by omega : ¬(1 ≤ p ∧ p ≤ n)), if_neg hr]
  · by_cases h1 : p = 1
    · simp [h1]
    · simp only [beq_iff_eq, h1, if_false, and_false, false_and]
      by_cases hr : 2 ≤ p ∧ p < 2 + n
      · rw [if_pos (by omega : 2 ≤ p ∧ p ≤ 1 + n), if_pos hr]
      · rw [if_neg (by omega : ¬(2 ≤ p ∧ p ≤ 1 + n)), if_neg hr]

/-- C2: the derived page sequence has
`totalPages = 1 + (hasParticipants?1:0) + dayCount + 1`; index 0 renders
the cover; index 1 renders participants iff `hasParticipants`, else the
first day (when days exist); each index in the day range renders the day
with 0-based offset `index - (hasParticipants?2:1)`; and the final index
renders notes. -/
theorem page_model_layout (hp : Bool) (n : Nat) :
    totalPages hp n = 1 + (if hp then 1 else 0) + n + 1 ∧
    renderCurrentPage hp n 0 = .cover ∧
    (hp = true → renderCurrentPage hp n 1 = .participants) ∧
    (hp = false → 0 < n → renderCurrentPage hp n 1 = .day 0) ∧
    (∀ i, daysStartPage hp ≤ i → i < daysStartPage hp + n →
      renderCurrentPage hp n i = .day (i - daysStartPage hp)) ∧
    renderCurrentPage hp n (totalPages hp n - 1) = .notes := by
  refine ⟨rfl, rfl, ?_, ?_, ?_, ?_⟩
  · intro h
    subst h
    rfl
  · intro h hn
    subst h
    rw [renderCurrentPage_eq]
    rw [if_neg (by omega), if_neg (by simp),
      if_pos (by simp only [daysStartPage, Bool.false_eq_true, if_false]; omega)]
    rfl
  · intro i h1 h2
    have hs : 1 ≤ daysStartPage hp := by cases hp <;> simp [daysStartPage]
    rw [renderCurrentPage_eq]
    rw [if_neg (by omega), if_neg ?_, if_pos ⟨h1, h2⟩]
    rintro ⟨hhp, hi⟩
    subst hhp
    simp only [daysStartPage, if_true] at h1
    omega
  · have hs : 1 ≤ daysStartPage hp := by cases hp <;> simp [daysStartPage]
    have htp : totalPages hp n - 1 = daysStartPage hp + n := by
      cases hp <;> simp [totalPages, daysStartPage]
    rw [renderCurrentPage_eq, htp]
    rw [if_neg (by omega), if_neg ?_, if_neg (by omega)]
    rintro ⟨hhp, hi⟩
    subst hhp
    simp only [daysStartPage, if_true] at hi
    omega

/-- C2 witness: with participants and three days, page index 4 renders the
day at 0-based offset 2. -/
theorem page_model_layout_witness : renderCurrentPage true 3 4 = .day 2 :=
  (page_model_layout true 3).2.2.2.2.1 4 (by decide) (by decide)

/-- C3: `handleNext` advances by exactly one only below the upper bound
`totalPages - 1` and is a no-op there; `handlePrevious` goes back by
exactly one only above 0 and is a no-op at 0; both keep `currentPage`
inside `[0, totalPages - 1]`. -/
theorem navigation_bounded (tp p : Nat) (h : p ≤ tp - 1) :
    (p < tp - 1 → handleNext tp p = p + 1) ∧
    (¬p < tp - 1 → handleNext tp p = p) ∧
    handleNext tp (tp - 1) = tp - 1 ∧
    (0 < p → handlePrevious p = p - 1) ∧
    (p = 0 → handlePrevious p = p) ∧
    handlePrevious 0 = 0 ∧
    handleNext tp p ≤ tp - 1 ∧
    handlePrevious p ≤ tp - 1 := by
  unfold handleNext handlePrevious
  refine ⟨fun h' => if_pos h', fun h' => if_neg h', if_neg (by omega),
    fun h' => if_pos h', fun h' => by subst h'; rfl, rfl, ?_, ?_⟩
  · split <;> omega
  · split <;> omega

/-- C3 witness: with 5 pages, stepping forward from page 2 reaches page 3,
and stepping back from page 0 stays at page 0. -/
theorem navigation_bounded_witness :
    handleNext 5 2 = 3 ∧ handlePrevious 0 = 0 :=
  ⟨(navigation_bounded 5 2 (by decide)).1 (by decide),
   (navigation_bounded 5 2 (by decide)).2.2.2.2.2.1⟩

/-! ## Lemmas about the load controller -/

theorem strContains_empty_left {pat : String} (h : pat ≠ "") :
    strContains "" pat = false := by
  simp only [strContains, decide_eq_false_iff_not]
  intro hinf
  rw [List.infix_nil] at hinf
  apply h
  cases pat with
  | mk d =>
    simp at hinf
    subst hinf
    rfl

theorem strOr_ne_empty {s f : String} (hf : f ≠ "") : strOr s f ≠ "" := by
  unfold strOr
  split
  · exact hf
  · assumption

theorem referer_guard_eq (r d : String) (hd : d ≠ "") :
    (decide (r ≠ "") && strContains r d) = strContains r d := by
  by_cases hr : r = ""
  · subst hr
    simp [strContains_empty_left hd]
  · simp [hr]

/-- The load decision written as a single conditional. -/
theorem loadDecision_eq (env : LoadEnv) :
    loadDecision env =
      if (decide (env.templateSecret ≠ "") &&
          !(decide (env.referer ≠ "") &&
            strContains env.referer (strOr env.allowedRefererEnv "traverse-hq.com")) &&
          !(if env.templateSecret ≠ "" then decide (env.token = some env.templateSecret)
            else true)) then
        .denied "Unauthorized: This itinerary can only be accessed through the Traverse app."
      else
        match env.itineraryId with
        | none => .demoReady
        | some id => .fetchIssued id := rfl

theorem loadDecision_isDenied (env : LoadEnv) :
    (loadDecision env).isDenied =
      (decide (env.templateSecret ≠ "") &&
        !(decide (env.referer ≠ "") &&
          strContains env.referer (strOr env.allowedRefererEnv "traverse-hq.com")) &&
        !(if env.templateSecret ≠ "" then decide (env.token = some env.templateSecret)
          else true)) := by
  rw [loadDecision_eq]
  generalize (decide (env.templateSecret ≠ "") &&
      !(decide (env.referer ≠ "") &&
        strContains env.referer (strOr env.allowedRefererEnv "traverse-hq.com")) &&
      !(if env.templateSecret ≠ "" then decide (env.token = some env.templateSecret)
        else true)) = C
  cases C
  · cases env.itineraryId <;> rfl
  · rfl

/-- C4: with a secret configured, a request is accepted (not denied) iff
the referrer contains the allow-listed domain or the token equals the
secret; a denied request never issues the fetch; with no secret configured,
every request is accepted. -/
theorem access_control_policy (env : LoadEnv) :
    (env.templateSecret ≠ "" →
      ((loadDecision env).isDenied = false ↔
        (strContains env.referer (strOr env.allowedRefererEnv "traverse-hq.com") = true ∨
          env.token = some env.templateSecret))) ∧
    ((loadDecision env).isDenied = true → ∀ id, loadDecision env ≠ .fetchIssued id) ∧
    (env.templateSecret = "" → (loadDecision env).isDenied = false) := by
  refine ⟨?_, ?_, ?_⟩
  · intro hs
    rw [loadDecision_isDenied,
      referer_guard_eq _ _ (strOr_ne_empty (by intro h; exact absurd h (by decide)))]
    rw [if_pos hs]
    cases hS : strContains env.referer (strOr env.allowedRefererEnv "traverse-hq.com") <;>
      by_cases hP : env.token = some env.templateSecret <;>
      simp [hs, hP]
  · intro h id heq
    rw [heq] at h
    simp [LoadAction.isDenied] at h
  · intro hs
    rw [loadDecision_isDenied]
    simp [hs]

/-- C4 witness: with secret "abc", a request with no referrer but
`token=abc` is accepted, and one with neither is denied. -/
theorem access_control_policy_witness :
    (loadDecision ⟨"", "abc", "", some "x", some "abc"⟩).isDenied = false ∧
    (loadDecision ⟨"", "abc", "", some "x", none⟩).isDenied = true := by
  constructor
  · exact ((access_control_policy ⟨"", "abc", "", some "x", some "abc"⟩).1
      (by decide)).mpr (Or.inr rfl)
  · have h := (access_control_policy ⟨"", "abc", "", some "x", none⟩).1 (by decide)
    cases hb : (loadDecision ⟨"", "abc", "", some "x", none⟩).isDenied
    · exact absurd (h.mp hb) (by decide)
    · rfl

/-- C6, counterexample: with a secret configured and neither a matching
referrer nor a token, a request without an `itineraryId` is denied, not
resolved to the demo data. -/
theorem demo_counterexample :
    loadDecision ⟨"", "abc", "", none, none⟩ =
      .denied "Unauthorized: This itinerary can only be accessed through the Traverse app." ∧
    loadDecision ⟨"", "abc", "", none, none⟩ ≠ .demoReady := by
  constructor
  · decide
  · decide

/-- C6 (amended): when no `itineraryId` is supplied and the access check
does not deny the request, the load effect resolves immediately to the
built-in demo data and issues no fetch. -/
theorem demo_when_no_id (env : LoadEnv) (hid : env.itineraryId = none)
    (hacc : (loadDecision env).isDenied = false) :
    loadDecision env = .demoReady ∧ ∀ id, loadDecision env ≠ .fetchIssued id := by
  rw [loadDecision_isDenied] at hacc
  rw [loadDecision_eq, hid, hacc]
  exact ⟨rfl, fun id h => nomatch h⟩

/-- C6 witness: the open-access default with no `itineraryId` resolves to
the demo data. -/
theorem demo_when_no_id_witness :
    loadDecision ⟨"", "", "", none, none⟩ = .demoReady :=
  (demo_when_no_id ⟨"", "", "", none, none⟩ rfl rfl).1

/-- C7: the loading overlay is dismissed iff the fetch has completed, the
view is hydrated, and a mapped itinerary is present; when any of the three
fails, the loading screen stays mounted and no page content is rendered. -/
theorem loading_gate (st : AppState) :
    ((appRender st).showsLoadingScreen = false ↔
      (st.loading = false ∧ st.isHydrated = true ∧ st.data.isSome = true)) ∧
    (showLoading st = true →
      (appRender st).showsLoadingScreen = true ∧
      (appRender st).showsPageContent = false) := by
  obtain ⟨l, hy, d, e⟩ := st
  constructor
  · cases l <;> cases hy <;> cases d <;> simp [appRender, showLoading]
  · intro h
    simp [appRender, h]

/-- C7 witness: completed fetch, hydrated view and present data dismiss
the loading overlay. -/
theorem loading_gate_witness :
    (appRender ⟨false, true, some itW8, none⟩).showsLoadingScreen = false :=
  (loading_gate ⟨false, true, some itW8, none⟩).1.mpr ⟨rfl, rfl, rfl⟩

/-- C5, counterexample: a non-number `distance_to_next` (here the string
"far") passes through the mapper unchanged instead of being normalized to
`null`. -/
theorem distance_passthrough_counterexample :
    (mapDocumentToTemplate
        (.obj [("days", .arr [.obj [("activities",
          .arr [.obj [("distance_to_next", .str "far")]])]])])).map
      (fun it => it.days.map (fun d => d.activities.map
        (fun a => a.distance_to_next)))
      = .ok [[.str "far"]] ∧
    (JsVal.str "far").isNumber = false ∧
    (JsVal.str "far").isNull = false :=
  ⟨rfl, rfl, rfl⟩

/-- C5 (amended): the mapper normalizes `distance_to_next` to `null`
exactly when the source value is null or absent, and otherwise passes it
through unchanged (whatever its type); an activity whose mapped distance is
`null` gets no indicator; and a numeric distance of 3.5 km is displayed
with its mile equivalent rounded to one decimal, 2.2 mi. -/
theorem distance_handling (a : JsVal) (m : MappedActivity)
    (h : mapActivity a = .ok m) (acts : List MappedActivity) (i : Nat)
    (hi : acts[i]? = some m) :
    m.distance_to_next = nullish (propOf a "distance_to_next") .null ∧
    ((propOf a "distance_to_next").isNullish = true → m.distance_to_next = .null) ∧
    (m.distance_to_next = .null → showDistanceIndicator acts i = false) ∧
    (m.distance_to_next = .num (7/2) →
      distanceLabel m.distance_to_next = some (7/2, 11/5)) := by
  have hm := mapActivity_ok_shape h
  refine ⟨by rw [hm], ?_, ?_, ?_⟩
  · intro hnl
    rw [hm]
    simp [nullish, hnl]
  · intro hnull
    simp [showDistanceIndicator, hi, hnull, JsVal.isNull]
  · intro hq
    rw [hq]
    simp only [distanceLabel, Option.some.injEq, Prod.mk.injEq, true_and]
    norm_num [kmToMiRounded, round_eq]

/-- The source activity of the C5 witness: 3.5 km to the next stop. -/
def actW5 : JsVal := .obj [("distance_to_next", .num (7/2))]

/-- The mapped activity `actW5` produces. -/
def mW5 : MappedActivity :=
  { time := .str "", title := .str "", location := .str ""
    description := .str "", image := .str placeholderImg
    distance_to_next := .num (7/2) }

/-- C5 witness: the mapped 3.5 km distance is labelled `3.5 km (2.2 mi)`. -/
theorem distance_handling_witness :
    distanceLabel (JsVal.num (7/2)) = some (7/2, 11/5) :=
  (distance_handling actW5 mW5 rfl [mW5] 0 rfl).2.2.2 rfl

/-- C10: in both DayPage variants the distance indicator for activity `i`
is rendered iff `i` is not the last index and `distance_to_next` is
neither null nor undefined; in particular it is never rendered after the
last activity of a day, whatever its distance value. -/
theorem distance_indicator_not_after_last (acts : List MappedActivity)
    (i : Nat) (a : MappedActivity) (ha : acts[i]? = some a) :
    (showDistanceIndicator acts i = true ↔
      (i < acts.length - 1 ∧ a.distance_to_next.isNull = false ∧
        a.distance_to_next.isUndefined = false)) ∧
    (i = acts.length - 1 → showDistanceIndicator acts i = false) ∧
    showDistanceIndicatorPrint acts i = showDistanceIndicator acts i := by
  have hlen : i < acts.length := by
    by_contra hc
    rw [List.getElem?_eq_none (by omega)] at ha
    exact Option.noConfusion ha
  refine ⟨?_, ?_, ?_⟩
  · simp only [showDistanceIndicator, ha, Bool.and_eq_true, Bool.not_eq_true',
      decide_eq_true_eq]
    tauto
  · intro hl
    have hnl : ¬(i < acts.length - 1) := by omega
    simp [showDistanceIndicator, ha, hnl]
  · cases hv : a.distance_to_next <;>
      simp [showDistanceIndicator, showDistanceIndicatorPrint, ha, hv,
        JsVal.isNull, JsVal.isUndefined]

/-- C10 witness: a non-last activity with a numeric distance shows the
indicator (and therefore a last one never does). -/
theorem distance_indicator_witness :
    showDistanceIndicator [mW5, mW5] 0 = true :=
  (distance_indicator_not_after_last [mW5, mW5] 0 mW5 rfl).1.mpr
    ⟨by decide, rfl, rfl⟩

/-! ## Lemmas about the prefetcher -/

theorem filter_map_image (xs : List MappedActivity) :
    (xs.filter (fun a => a.image.truthy)).map (fun a => a.image) =
      (xs.map (fun a => a.image)).filter JsVal.truthy := by
  induction xs with
  | nil => rfl
  | cons a t ih =>
    by_cases h : a.image.truthy
    · simp [List.filter_cons, h, ih]
    · simp [List.filter_cons, h, ih]

/-- The images the preload effect collects for an adjacent index are
exactly the fetched subset of what the page rendered at that index shows. -/
theorem preloadImagesForPage_eq (hp : Bool) (data : Itinerary) (p : Nat) :
    preloadImagesForPage hp data p =
      fetchedImagesOfPage data (renderCurrentPage hp data.days.length p) := by
  by_cases h0 : p = 0
  · subst h0
    simp [preloadImagesForPage, renderCurrentPage_eq, fetchedImagesOfPage,
      pageImages]
  by_cases h1 : hp = true ∧ p = 1
  · obtain ⟨hhp, hp1⟩ := h1
    subst hhp
    subst hp1
    simp [preloadImagesForPage, renderCurrentPage_eq, fetchedImagesOfPage]
  have hB : (hp && (p == 1)) = false := by
    cases hp
    · rfl
    · have : p ≠ 1 := fun hp1 => h1 ⟨rfl, hp1⟩
      simp [this]
  by_cases hr : daysStartPage hp ≤ p ∧ p < daysStartPage hp + data.days.length
  · rw [renderCurrentPage_eq, if_neg h0, if_neg h1, if_pos hr]
    unfold preloadImagesForPage
    rw [if_neg h0, hB]
    simp only [Bool.false_eq_true, if_false]
    rw [if_pos hr]
    simp only [fetchedImagesOfPage, pageImages]
    cases data.days[p - daysStartPage hp]? with
    | none => rfl
    | some d => exact filter_map_image d.activities
  · rw [renderCurrentPage_eq, if_neg h0, if_neg h1, if_neg hr]
    unfold preloadImagesForPage
    rw [if_neg h0, hB]
    simp only [Bool.false_eq_true, if_false]
    rw [if_neg hr]
    rfl

/-- C9 (amended): once loading has completed, the view is hydrated and
data is present, the collected list of the preload effect is exactly, in order,
the fetched image subset of the next page (when one exists) followed by
that of the previous page (when one exists): the cover image for a cover
page, each truthy activity image for a day page, and nothing for a
participants or notes page. -/
theorem preload_adjacent (st : AppState) (hp : Bool) (data : Itinerary)
    (cp : Nat) (hl : st.loading = false) (hh : st.isHydrated = true)
    (hd : st.data = some data) :
    preloadEffect st hp (totalPages hp data.days.length) cp =
      (if cp < totalPages hp data.days.length - 1 then
        fetchedImagesOfPage data (renderCurrentPage hp data.days.length (cp + 1))
      else []) ++
      (if 0 < cp then
        fetchedImagesOfPage data (renderCurrentPage hp data.days.length (cp - 1))
      else []) := by
  unfold preloadEffect
  rw [hd, hl, hh]
  simp only [Bool.not_true, Bool.or_false, Bool.false_eq_true, if_false]
  unfold preloadImages
  rw [preloadImagesForPage_eq, preloadImagesForPage_eq]

/-- The itinerary used by the C9 witness and counterexample: one day whose
single activity has an empty (falsy) image reference. -/
def dataW9 : Itinerary :=
  { tripName := .str "", traveler := .str "", destination := .str ""
    city := .null, duration := .str "", dates := .str ""
    coverImage := .str "cover"
    days := [⟨1, .str "", [⟨.str "", .str "", .str "", .str "", .str "", .null⟩]⟩]
    notes := .arr [], tripType := .null, group := .null }

/-- C9, counterexample: the next page (the day page) renders an image
reference (the empty-string `src`), but the preloader collects nothing for
it, so the collected set is not exactly what the page renders. -/
theorem preload_exact_counterexample :
    preloadEffect ⟨false, true, some dataW9, none⟩ false 3 0 = [] ∧
    renderCurrentPage false 1 1 = .day 0 ∧
    pageImages dataW9 (.day 0) = [.str ""] ∧
    ([] : List JsVal) ≠ [.str ""] :=
  ⟨rfl, rfl, rfl, fun h => nomatch h⟩

/-- C9 witness: from page 1 of the one-day itinerary, the preloader
collects exactly the fetched images of pages 2 (notes) and 0 (cover). -/
theorem preload_adjacent_witness :
    preloadEffect ⟨false, true, some dataW9, none⟩ false
        (totalPages false dataW9.days.length) 1 =
      (if 1 < totalPages false dataW9.days.length - 1 then
        fetchedImagesOfPage dataW9 (renderCurrentPage false dataW9.days.length 2)
      else []) ++
      (if 0 < 1 then
        fetchedImagesOfPage dataW9 (renderCurrentPage false dataW9.days.length 0)
      else []) :=
  preload_adjacent ⟨false, true, some dataW9, none⟩ false dataW9 1 rfl rfl rfl

end Traverse
